import Mathlib

/-!
Verification of the `claude_code_setup` repository's behavioural core.

The repository's functional core consists of three pure Python functions:

* `sanitize_string` (src/claude_code_setup/utils/helpers.py):
  `re.sub(r"[^a-zA-Z0-9\s]", "", value).strip()` — delete every character
  that is not an ASCII letter, an ASCII digit, or a whitespace character
  (CPython's Unicode whitespace class), then strip leading and trailing
  whitespace.
* `validate_input` (src/claude_code_setup/utils/helpers.py):
  `value if value is not None else default`.
* `example_function` (src/claude_code_setup/core/main.py):
  `greeting = f"Hello, {name}!"; return " ".join([greeting] * count)`.
* `main` (src/claude_code_setup/core/main.py): prints
  `example_function("World")` (so with the default `count = 1`).

Python strings are modelled as `List Char`; the Python `int` repeat count is
modelled as `Int` (Python list repetition with a count `≤ 0` yields the empty
list, which `Int.toNat` captures).
-/

namespace ClaudeCodeSetup

/-- CPython's Unicode whitespace predicate (`Py_UNICODE_ISSPACE`): the code
points matched by the regex class `\s` on `str` patterns and stripped by
`str.strip()` with no argument. -/
def isPyWhitespace (c : Char) : Bool :=
  (0x09 ≤ c.toNat && c.toNat ≤ 0x0D) || (0x1C ≤ c.toNat && c.toNat ≤ 0x1F) ||
  c.toNat == 0x20 || c.toNat == 0x85 || c.toNat == 0xA0 || c.toNat == 0x1680 ||
  (0x2000 ≤ c.toNat && c.toNat ≤ 0x200A) || c.toNat == 0x2028 ||
  c.toNat == 0x2029 || c.toNat == 0x202F || c.toNat == 0x205F ||
  c.toNat == 0x3000

/-- The regex range `a-zA-Z`: ASCII letters. -/
def isAsciiLetter (c : Char) : Bool :=
  (0x41 ≤ c.toNat && c.toNat ≤ 0x5A) || (0x61 ≤ c.toNat && c.toNat ≤ 0x7A)

/-- The regex range `0-9`: ASCII digits. -/
def isAsciiDigit (c : Char) : Bool :=
  0x30 ≤ c.toNat && c.toNat ≤ 0x39

/-- A character NOT matched (hence kept) by `re.sub(r"[^a-zA-Z0-9\s]", "", value)`:
inside the regex class `[a-zA-Z0-9\s]`. -/
def keptChar (c : Char) : Bool :=
  isAsciiLetter c || isAsciiDigit c || isPyWhitespace c

/-- Python `str.strip()` with no argument: remove leading and then trailing
whitespace characters. -/
def pyStrip (s : List Char) : List Char :=
  ((s.dropWhile isPyWhitespace).reverse.dropWhile isPyWhitespace).reverse

/-- `sanitize_string` from src/claude_code_setup/utils/helpers.py:
`re.sub(r"[^a-zA-Z0-9\s]", "", value).strip()`. Each regex match is a single
character replaced by the empty string, so the substitution is a filter. -/
def sanitize_string (value : List Char) : List Char :=
  pyStrip (value.filter keptChar)

/-- `validate_input` from src/claude_code_setup/utils/helpers.py:
`value if value is not None else default`, with `None` modelled as `none`. -/
def validate_input {α : Type _} (value : Option α) (default : α) : α :=
  match value with
  | some v => v
  | none => default

/-- Python `sep.join(xs)`: the elements of `xs` concatenated with `sep`
between consecutive elements. -/
def pyJoin (sep : List Char) : List (List Char) → List Char
  | [] => []
  | [x] => x
  | x :: y :: xs => x ++ sep ++ pyJoin sep (y :: xs)

/-- The local `greeting = f"Hello, {name}!"` of `example_function`. -/
def greeting (name : List Char) : List Char :=
  "Hello, ".data ++ name ++ "!".data

/-- `example_function` from src/claude_code_setup/core/main.py:
`" ".join([greeting] * count)`. Python list repetition by a count `≤ 0`
yields `[]`, which `Int.toNat` models. -/
def example_function (name : List Char) (count : Int := 1) : List Char :=
  pyJoin " ".data (List.replicate count.toNat (greeting name))

/-- The text written to standard output by `main` in
src/claude_code_setup/core/main.py: `example_function("World")`. -/
def main_output : List Char :=
  example_function "World".data

/-- Written from the spec's words for the Sanitizer contract: keep only the
characters classified as ASCII letters, ASCII digits, or whitespace,
preserving order, then remove leading and trailing whitespace. -/
def sanitize_spec (x : List Char) : List Char :=
  pyStrip (x.filter (fun c => isAsciiLetter c || isAsciiDigit c || isPyWhitespace c))

/-- The spec's shape of `greet(name, n)` for positive `n`: exactly `n` copies
of the greeting joined by single spaces. -/
def copies_joined (g : List Char) : Nat → List Char
  | 0 => []
  | 1 => g
  | Nat.succ (Nat.succ k) => g ++ " ".data ++ copies_joined g (k + 1)

theorem dropWhile_head?_false {α : Type _} (p : α → Bool) :
    ∀ (l : List α) (c : α), (l.dropWhile p).head? = some c → p c = false := by
  intro l
  induction l with
  | nil => intro c h; simp at h
  | cons a t ih =>
    intro c h
    by_cases hp : p a
    · rw [List.dropWhile_cons_of_pos hp] at h
      exact ih c h
    · rw [List.dropWhile_cons_of_neg hp] at h
      simp at h
      rw [← h]
      exact Bool.eq_false_iff.mpr hp

theorem getLast?_dropWhile {α : Type _} (p : α → Bool) (l : List α) (c : α)
    (h : (l.dropWhile p).getLast? = some c) : l.getLast? = some c := by
  obtain ⟨t, ht⟩ := List.dropWhile_suffix (l := l) p
  have hne : l.dropWhile p ≠ [] := by
    intro hnil
    rw [hnil] at h
    simp at h
  rw [← ht, List.getLast?_append_of_ne_nil t hne]
  exact h

theorem pyStrip_head (l : List Char) (c : Char)
    (h : (pyStrip l).head? = some c) : isPyWhitespace c = false := by
  unfold pyStrip at h
  rw [List.head?_reverse] at h
  have h2 := getLast?_dropWhile isPyWhitespace _ _ h
  rw [List.getLast?_reverse] at h2
  exact dropWhile_head?_false isPyWhitespace _ _ h2

theorem pyStrip_getLast (l : List Char) (c : Char)
    (h : (pyStrip l).getLast? = some c) : isPyWhitespace c = false := by
  unfold pyStrip at h
  rw [List.getLast?_reverse] at h
  exact dropWhile_head?_false isPyWhitespace _ _ h

theorem mem_of_mem_pyStrip (l : List Char) (c : Char)
    (h : c ∈ pyStrip l) : c ∈ l := by
  unfold pyStrip at h
  rw [List.mem_reverse] at h
  obtain ⟨t, ht⟩ := List.dropWhile_suffix (l := (l.dropWhile isPyWhitespace).reverse) isPyWhitespace
  have h2 : c ∈ (l.dropWhile isPyWhitespace).reverse := by
    rw [← ht]
    exact List.mem_append_right t h
  rw [List.mem_reverse] at h2
  obtain ⟨u, hu⟩ := List.dropWhile_suffix (l := l) isPyWhitespace
  rw [← hu]
  exact List.mem_append_right u h2

theorem dropWhile_eq_self_of_head {α : Type _} (p : α → Bool) (l : List α)
    (h : ∀ c, l.head? = some c → p c = false) : l.dropWhile p = l := by
  cases l with
  | nil => rfl
  | cons a t =>
    have ha : p a = false := h a rfl
    exact List.dropWhile_cons_of_neg (by simp [ha])

theorem pyStrip_eq_self (l : List Char)
    (h1 : ∀ c, l.head? = some c → isPyWhitespace c = false)
    (h2 : ∀ c, l.getLast? = some c → isPyWhitespace c = false) :
    pyStrip l = l := by
  unfold pyStrip
  rw [dropWhile_eq_self_of_head isPyWhitespace l h1]
  rw [dropWhile_eq_self_of_head isPyWhitespace l.reverse (by
    intro c hc
    rw [List.head?_reverse] at hc
    exact h2 c hc)]
  exact List.reverse_reverse l

/-- C1: for every input string x, every character of `sanitize_string x` is an
ASCII letter, an ASCII digit, or a whitespace character, and the result has no
leading or trailing whitespace character. -/
theorem sanitize_string_chars_and_trimmed (x : List Char) :
    (∀ c ∈ sanitize_string x,
      isAsciiLetter c = true ∨ isAsciiDigit c = true ∨ isPyWhitespace c = true) ∧
    (∀ c, (sanitize_string x).head? = some c → isPyWhitespace c = false) ∧
    (∀ c, (sanitize_string x).getLast? = some c → isPyWhitespace c = false) := by
  refine ⟨?_, ?_, ?_⟩
  · intro c hc
    have hx : c ∈ x.filter keptChar := mem_of_mem_pyStrip _ _ hc
    have hk : keptChar c = true := (List.mem_filter.mp hx).2
    unfold keptChar at hk
    rcases Bool.or_eq_true_iff.mp hk with h | h
    · rcases Bool.or_eq_true_iff.mp h with h1 | h1
      · exact Or.inl h1
      · exact Or.inr (Or.inl h1)
    · exact Or.inr (Or.inr h)
  · exact fun c h => pyStrip_head _ _ h
  · exact fun c h => pyStrip_getLast _ _ h

/-- Closed instance of `sanitize_string_chars_and_trimmed`, discharging its
inner hypotheses at the concrete input "  ab  ". -/
theorem sanitize_string_chars_and_trimmed_witness :
    isAsciiLetter 'a' = true ∨ isAsciiDigit 'a' = true ∨ isPyWhitespace 'a' = true :=
  (sanitize_string_chars_and_trimmed "  ab  ".data).1 'a' (by decide)

/-- C2: `sanitize_string` is idempotent: sanitizing an already-sanitized
string returns it unchanged. -/
theorem sanitize_string_idempotent (x : List Char) :
    sanitize_string (sanitize_string x) = sanitize_string x := by
  have hmem : ∀ c ∈ sanitize_string x, keptChar c = true := by
    intro c hc
    exact (List.mem_filter.mp (mem_of_mem_pyStrip _ _ hc)).2
  show pyStrip ((sanitize_string x).filter keptChar) = sanitize_string x
  rw [List.filter_eq_self.mpr hmem]
  exact pyStrip_eq_self _ (fun c h => pyStrip_head _ _ h)
    (fun c h => pyStrip_getLast _ _ h)

/-- C3: `sanitize_string` deletes exactly the characters outside the
permitted set and then trims: it agrees everywhere with the function written
from the spec's words, and the internal space of "Hello World" is kept. -/
theorem sanitize_string_is_filter_then_trim :
    (∀ x : List Char, sanitize_string x = sanitize_spec x) ∧
    sanitize_string "Hello World".data = "Hello World".data := by
  constructor
  · intro x
    rfl
  · decide

/-- C8: sanitization never lengthens its input. -/
theorem sanitize_string_length_le (x : List Char) :
    (sanitize_string x).length ≤ x.length := by
  unfold sanitize_string pyStrip
  rw [List.length_reverse]
  calc (((x.filter keptChar).dropWhile isPyWhitespace).reverse.dropWhile isPyWhitespace).length
      ≤ ((x.filter keptChar).dropWhile isPyWhitespace).reverse.length :=
        List.Sublist.length_le (List.dropWhile_sublist _)
    _ = ((x.filter keptChar).dropWhile isPyWhitespace).length :=
        List.length_reverse _
    _ ≤ (x.filter keptChar).length :=
        List.Sublist.length_le (List.dropWhile_sublist _)
    _ ≤ x.length := List.length_filter_le _ _

/-- C10: the output of `sanitize_string` is not restricted to ASCII: the
no-break space U+00A0 between letters is preserved, because the removal
pattern admits every Unicode whitespace character. -/
theorem sanitize_string_keeps_nonascii_whitespace :
    sanitize_string ['a', Char.ofNat 0xA0, 'b'] = ['a', Char.ofNat 0xA0, 'b'] ∧
    128 ≤ (Char.ofNat 0xA0).toNat ∧ isPyWhitespace (Char.ofNat 0xA0) = true := by
  refine ⟨by decide, by decide, by decide⟩

theorem pyJoin_replicate (g : List Char) :
    ∀ k : Nat, pyJoin " ".data (List.replicate k g) = copies_joined g k := by
  intro k
  induction k with
  | zero => rfl
  | succ n ih =>
    cases n with
    | zero => rfl
    | succ m =>
      rw [List.replicate_succ, List.replicate_succ]
      show g ++ " ".data ++ pyJoin " ".data (g :: List.replicate m g) = _
      rw [← List.replicate_succ, ih]
      rfl

/-- C4: for a positive count n, `example_function name n` is exactly n copies
of the greeting joined by single spaces; with count 1 it is the greeting. -/
theorem example_function_copies (name : List Char) (n : Int) (h : 0 < n) :
    example_function name n = copies_joined (greeting name) n.toNat ∧
    example_function name 1 = greeting name :=
  ⟨pyJoin_replicate (greeting name) n.toNat, rfl⟩

/-- Closed instance of `example_function_copies` at the concrete inputs
name = "Bob", n = 2. -/
theorem example_function_copies_witness :
    example_function "Bob".data 2 = copies_joined (greeting "Bob".data) (Int.toNat 2) ∧
    example_function "Bob".data 1 = greeting "Bob".data :=
  example_function_copies "Bob".data 2 (by decide)

/-- C5: a count less than or equal to zero yields the empty string. -/
theorem example_function_nonpos (name : List Char) (count : Int)
    (h : count ≤ 0) : example_function name count = [] := by
  unfold example_function
  rw [Int.toNat_of_nonpos h]
  rfl

/-- Closed instance of `example_function_nonpos` at name = "World",
count = -3. -/
theorem example_function_nonpos_witness :
    example_function "World".data (-3) = [] :=
  example_function_nonpos "World".data (-3) (by decide)

/-- C6: `validate_input` returns the value unchanged when it is present, and
the default when the value is the absent marker `none`; it is total. -/
theorem validate_input_spec (α : Type) :
    (∀ (v d : α), validate_input (some v) d = v) ∧
    (∀ d : α, validate_input (none : Option α) d = d) :=
  ⟨fun _ _ => rfl, fun _ => rfl⟩

/-- C7: the text printed by `main`, namely `example_function "World"` with
the default count 1, equals "Hello, World!"; the model is a total function,
so there is no failure path. -/
theorem main_output_eq : main_output = "Hello, World!".data := by decide

theorem greeting_length (name : List Char) :
    (greeting name).length = name.length + 8 := by
  unfold greeting
  rw [List.length_append, List.length_append]
  have h7 : ("Hello, ".data).length = 7 := rfl
  have h1 : ("!".data).length = 1 := rfl
  rw [h7, h1]
  omega

theorem pyJoin_replicate_length (g : List Char) :
    ∀ k : Nat, 1 ≤ k →
      (pyJoin " ".data (List.replicate k g)).length = k * g.length + (k - 1) := by
  intro k
  induction k with
  | zero => intro h; exact absurd h (by omega)
  | succ n ih =>
    intro _
    cases n with
    | zero => simp [List.replicate, pyJoin]
    | succ m =>
      have hrec := ih (by omega)
      rw [List.replicate_succ, List.replicate_succ]
      show (g ++ " ".data ++ pyJoin " ".data (g :: List.replicate m g)).length = _
      rw [← List.replicate_succ, List.length_append, List.length_append, hrec]
      have hs : (" ".data).length = 1 := rfl
      rw [hs]
      simp only [Nat.succ_sub_one]
      ring

/-- C9: for n ≥ 1, the length of `example_function name n` is
n * (length name + 8) + (n - 1), where 8 is the length of the fixed template
text and n - 1 counts the joining spaces. -/
theorem example_function_length (name : List Char) (n : Int) (h : 1 ≤ n) :
    ((example_function name n).length : Int)
      = n * ((name.length : Int) + 8) + (n - 1) := by
  obtain ⟨k, hk⟩ : ∃ k : Nat, n = (k : Int) :=
    ⟨n.toNat, (Int.toNat_of_nonneg (by omega)).symm⟩
  subst hk
  have hk1 : 1 ≤ k := by exact_mod_cast h
  unfold example_function
  rw [Int.toNat_ofNat, pyJoin_replicate_length (greeting name) k hk1,
    greeting_length]
  push_cast [Nat.cast_sub hk1]
  ring

/-- Closed instance of `example_function_length` at name = "Bob", n = 2. -/
theorem example_function_length_witness :
    ((example_function "Bob".data 2).length : Int)
      = 2 * (("Bob".data.length : Int) + 8) + (2 - 1) :=
  example_function_length "Bob".data 2 (by decide)

end ClaudeCodeSetup
